import Mathlib

/-
Verification development for the subno.ts SDK resilience core
(src/sdk/python/src/securenotify): the retry engine, the token-bucket
rate limiter, the request deduplicator, and the SSE connection manager.

Each definition is a shallow embedding of the corresponding Python
function; Python floats are modelled as rationals, dictionaries as
insertion-ordered association lists (CPython dicts preserve insertion
order), asyncio futures as an explicit table of future states, and
cooperative-concurrency interleavings as sequential application of the
atomic (no-await) sections of each coroutine.
-/

/- ===================== types/errors.py ===================== -/

/-- `ErrorCode` enum from types/errors.py. -/
inductive ErrorCode where
  | SUCCESS
  | AUTH_REQUIRED
  | AUTH_FAILED
  | FORBIDDEN
  | NOT_FOUND
  | CHANNEL_EXISTS
  | KEY_EXPIRED
  | RESOURCE_EXISTS
  | VALIDATION_ERROR
  | MESSAGE_TOO_LARGE
  | RATE_LIMIT_EXCEEDED
  | INTERNAL_ERROR
  | BAD_GATEWAY
  | SERVICE_UNAVAILABLE
  | GATEWAY_TIMEOUT
  | NETWORK_ERROR
  | TIMEOUT_ERROR
  | CONNECTION_ERROR
  | SERIALIZATION_ERROR
  | DESERIALIZATION_ERROR
  | SSE_CONNECTION_ERROR
  | SSE_HEARTBEAT_TIMEOUT
  | INVALID_OPTIONS
  | MISSING_API_KEY
  | INVALID_BASE_URL
deriving DecidableEq, Repr

/-- The `RETRYABLE_ERRORS` set from types/errors.py. -/
def RETRYABLE_ERRORS : List ErrorCode :=
  [ .RATE_LIMIT_EXCEEDED, .INTERNAL_ERROR, .BAD_GATEWAY, .SERVICE_UNAVAILABLE,
    .GATEWAY_TIMEOUT, .NETWORK_ERROR, .TIMEOUT_ERROR, .CONNECTION_ERROR,
    .SSE_CONNECTION_ERROR, .SSE_HEARTBEAT_TIMEOUT ]

/-- The Python exception values the SDK raises.  `apiError` covers
`SecureNotifyApiError` and its subclass `SecureNotifyRateLimitError`
(which always carries code `RATE_LIMIT_EXCEEDED`); `valueError` models
the Python built-in `ValueError` (raised by `SSEClient.connect` for a
malformed channel id; the spec taxonomy calls this ValidationFailure);
`otherError` models an exception outside the SDK hierarchy. -/
inductive SNError where
  | apiError (code : ErrorCode) (msg : String)
  | connectionError (msg : String)
  | timeoutError (msg : String)
  | authenticationError (msg : String)
  | baseError (msg : String)
  | valueError (msg : String)
  | otherError (msg : String)
deriving DecidableEq, Repr

/-- The Python exception classes the retry configuration can name. -/
inductive ExcClass where
  | snApiError
  | snConnectionError
  | snTimeoutError
  | snAuthenticationError
  | snError
  | exc
deriving DecidableEq, Repr

/-- Python `isinstance` over the class hierarchy of types/errors.py:
every SDK error derives from `SecureNotifyError`, which derives from
`Exception`; `ValueError` and foreign exceptions only from `Exception`. -/
def isinstanceOf (e : SNError) (c : ExcClass) : Bool :=
  match c with
  | .snApiError =>
      match e with
      | .apiError _ _ => true
      | _ => false
  | .snConnectionError =>
      match e with
      | .connectionError _ => true
      | _ => false
  | .snTimeoutError =>
      match e with
      | .timeoutError _ => true
      | _ => false
  | .snAuthenticationError =>
      match e with
      | .authenticationError _ => true
      | _ => false
  | .snError =>
      match e with
      | .apiError _ _ => true
      | .connectionError _ => true
      | .timeoutError _ => true
      | .authenticationError _ => true
      | .baseError _ => true
      | _ => false
  | .exc => true

/-- `SecureNotifyApiError.is_retryable`: membership of the error code in
`RETRYABLE_ERRORS`.  On a non-API error the attribute does not exist;
`should_retry` only reads it under an `isinstance` guard, so the `false`
returned here for other constructors is never observed. -/
def SNError.is_retryable (e : SNError) : Bool :=
  match e with
  | .apiError code _ => RETRYABLE_ERRORS.contains code
  | _ => false

/- ===================== utils/retry.py ===================== -/

/-- `RetryConfig` from utils/retry.py.  Delay fields are rationals
standing for Python floats.  `retryable_exceptions` and
`non_retryable_exceptions` hold exception classes checked with
`isinstance`. -/
structure RetryConfig where
  max_retries : Nat
  initial_delay : ℚ
  max_delay : ℚ
  backoff_multiplier : ℚ
  jitter : Bool
  retryable_exceptions : List ExcClass
  non_retryable_exceptions : List ExcClass

/-- The default-constructed `RetryConfig(...)` with `max_retries := n`:
`retryable_exceptions` defaults to `(SecureNotifyConnectionError,
SecureNotifyTimeoutError)` and `non_retryable_exceptions` to
`(SecureNotifyApiError,)`. -/
def defaultRetryConfig (n : Nat) : RetryConfig :=
  { max_retries := n
    initial_delay := 1
    max_delay := 30
    backoff_multiplier := 2
    jitter := true
    retryable_exceptions := [.snConnectionError, .snTimeoutError]
    non_retryable_exceptions := [.snApiError] }

/-- `RetryConfig.should_retry` (utils/retry.py lines 73-98): `false` once
`attempt >= max_retries`; else the non-retryable classes are scanned
first, and a match consults the per-error `is_retryable` predicate when
the error is a `SecureNotifyApiError`; else the retryable classes are
scanned; anything unmatched is not retried. -/
def RetryConfig.should_retry (cfg : RetryConfig) (e : SNError) (attempt : Nat) : Bool :=
  if cfg.max_retries ≤ attempt then false
  else if cfg.non_retryable_exceptions.any (fun c => isinstanceOf e c) then
    (if isinstanceOf e .snApiError then e.is_retryable else false)
  else cfg.retryable_exceptions.any (fun c => isinstanceOf e c)

/-- One `for attempt in range(...)` iteration chain of `with_retry`
(utils/retry.py lines 141-154).  `f k` is the outcome of the `k`-th
invocation of the wrapped operation (0-indexed).  Returns the number of
invocations performed together with the returned value or the raised
error.  Backoff sleeps are elided: they have no bearing on invocation
counts or on which error is raised (the delay is consumed by
`asyncio.sleep` only).  The fuel-0 case models the `raise last_exception`
line after the loop, unreachable because `should_retry` is false at
`attempt = max_retries`. -/
def withRetryAux {α : Type} (cfg : RetryConfig) (f : Nat → Except SNError α) :
    Nat → Nat → Option SNError → Nat × Except SNError α
  | _, 0, last =>
      (0, match last with
          | some e => .error e
          | none => .error (.baseError "with_retry: no attempt was made"))
  | attempt, fuel + 1, _ =>
      match f attempt with
      | .ok v => (1, .ok v)
      | .error e =>
          if cfg.should_retry e attempt then
            let r := withRetryAux cfg f (attempt + 1) fuel (some e)
            (r.1 + 1, r.2)
          else (1, .error e)

/-- `with_retry(func, config)` (utils/retry.py lines 123-154):
`config.max_retries + 1` loop iterations at most. -/
def with_retry {α : Type} (cfg : RetryConfig) (f : Nat → Except SNError α) :
    Nat × Except SNError α :=
  withRetryAux cfg f 0 (cfg.max_retries + 1) none

/- ===================== utils/rate_limiter.py ===================== -/

/-- Mutable state of `RateLimiter` plus its configuration fields.
`max_tokens` is an `int` in the source and `tokens` starts at that
integer value becoming a float through refill arithmetic; both are
modelled as rationals. -/
structure RateLimiter where
  max_tokens : ℚ
  refill_rate : ℚ
  refill_interval : ℚ
  tokens : ℚ
  last_refill : ℚ

/-- `RateLimiter.__init__` with current wall-clock time `now`. -/
def RateLimiter.init (maxTokens refillRate refillInterval now : ℚ) : RateLimiter :=
  { max_tokens := maxTokens
    refill_rate := refillRate
    refill_interval := refillInterval
    tokens := maxTokens
    last_refill := now }

/-- Outcome of one `acquire` call: an immediate grant, a refusal because
the timeout was exceeded, or a grant after suspending for `w` seconds. -/
inductive AcquireOutcome where
  | grantedImmediate
  | refused
  | grantedAfterWait (w : ℚ)
deriving DecidableEq, Repr

/-- Whether the outcome went through the `asyncio.sleep` suspension. -/
def AcquireOutcome.waited : AcquireOutcome → Bool
  | .grantedAfterWait _ => true
  | _ => false

/-- The lazy-refill block of `acquire` (utils/rate_limiter.py lines
49-56): when a full interval elapsed, add `int(elapsed / interval)`
refill cycles worth of tokens, capped at `max_tokens`, and advance
`last_refill` to `now`. -/
def RateLimiter.refill (s : RateLimiter) (now : ℚ) : RateLimiter :=
  let elapsed := now - s.last_refill
  if s.refill_interval ≤ elapsed then
    let refill_cycles : ℤ := ⌊elapsed / s.refill_interval⌋
    let tokens_to_add := (refill_cycles : ℚ) * s.refill_rate
    { s with tokens := min s.max_tokens (s.tokens + tokens_to_add), last_refill := now }
  else s

/-- `RateLimiter.acquire` (utils/rate_limiter.py lines 38-77), with the
wall-clock reading `now` made explicit.  The whole body runs under the
instance lock; the `asyncio.sleep(wait_time)` suspension is reflected in
the `grantedAfterWait` outcome.  Note the post-sleep path decrements
`tokens` without running the refill again. -/
def RateLimiter.acquire (s : RateLimiter) (now : ℚ) (timeout : Option ℚ) :
    RateLimiter × AcquireOutcome :=
  let s := s.refill now
  if 1 ≤ s.tokens then
    ({ s with tokens := s.tokens - 1 }, .grantedImmediate)
  else if timeout.any (fun t => decide (t ≤ 0)) then
    (s, .refused)
  else
    let wait_time := (1 - s.tokens) / s.refill_rate * s.refill_interval
    if timeout.any (fun t => decide (t < wait_time)) then
      (s, .refused)
    else
      ({ s with tokens := s.tokens - 1 }, .grantedAfterWait wait_time)

/- ========== JSON values (Python json module, restricted) ========== -/

/-- The opening curly brace character (written via its code point so it
never appears literally inside a string). -/
def lbrace : Char := Char.ofNat 123

/-- The closing curly brace character. -/
def rbrace : Char := Char.ofNat 125

/-- JSON values as produced by the Python `json.loads` / consumed by
`json.dumps`, restricted to the fragment the SDK claims exercise:
numbers are integers (JSON floats carry IEEE-754 semantics that this
embedding does not model; no claim involves a non-integer number). -/
inductive Json where
  | null : Json
  | bool (b : Bool) : Json
  | num (n : Int) : Json
  | str (s : String) : Json
  | arr (elems : List Json) : Json
  | obj (fields : List (String × Json)) : Json
deriving Repr

/-- JSON insignificant whitespace. -/
def skipWs (cs : List Char) : List Char :=
  cs.dropWhile (fun c => c == ' ' || c == '\t' || c == '\n' || c == '\r')

/-- Body of a JSON string after the opening quote: returns the decoded
characters and the remainder after the closing quote.  The common
backslash escapes are decoded; `\uXXXX` escapes are outside the modelled
fragment and make the parse fail (no claim feeds one). -/
def parseStringBody : List Char → Option (List Char × List Char)
  | [] => none
  | '"' :: rest => some ([], rest)
  | '\\' :: e :: rest =>
      let dec : Option Char :=
        if e == '"' then some '"'
        else if e == '\\' then some '\\'
        else if e == '/' then some '/'
        else if e == 'n' then some '\n'
        else if e == 't' then some '\t'
        else if e == 'r' then some '\r'
        else if e == 'b' then some (Char.ofNat 8)
        else if e == 'f' then some (Char.ofNat 12)
        else none
      match dec with
      | some c => (parseStringBody rest).map (fun p => (c :: p.1, p.2))
      | none => none
  | c :: rest => (parseStringBody rest).map (fun p => (c :: p.1, p.2))

/-- A run of decimal digits and the remainder. -/
def takeDigits (cs : List Char) : List Char × List Char :=
  (cs.takeWhile Char.isDigit, cs.dropWhile Char.isDigit)

/-- Value of a digit run. -/
def digitsToNat (ds : List Char) : Nat :=
  ds.foldl (fun acc c => acc * 10 + (c.toNat - 48)) 0

/-- A JSON integer (optional minus sign then digits); Python also accepts
fractions/exponents (floats), which are outside the modelled fragment. -/
def parseIntLit (cs : List Char) : Option (Json × List Char) :=
  match cs with
  | '-' :: rest =>
      let (ds, r) := takeDigits rest
      if ds.isEmpty then none else some (.num (-(digitsToNat ds : Int)), r)
  | _ =>
      let (ds, r) := takeDigits cs
      if ds.isEmpty then none else some (.num (digitsToNat ds : Int), r)

/-- `cs` begins with the given characters; returns the remainder. -/
def expectChars (pat : List Char) (cs : List Char) : Option (List Char) :=
  match pat, cs with
  | [], rest => some rest
  | p :: ps, c :: rest => if c == p then expectChars ps rest else none
  | _ :: _, [] => none

mutual

/-- Recursive-descent JSON value parser (Python `json.loads` core),
fuelled: every recursive call consumes at least one input character, so
fuel `length + 1` never runs out on the initial input. -/
def parseJsonValue : Nat → List Char → Option (Json × List Char)
  | 0, _ => none
  | fuel + 1, cs =>
      match skipWs cs with
      | [] => none
      | c :: rest =>
          if c == '"' then
            (parseStringBody rest).map (fun p => (.str (String.mk p.1), p.2))
          else if c == lbrace then
            match skipWs rest with
            | c2 :: r2 =>
                if c2 == rbrace then some (.obj [], r2)
                else
                  (parseJsonMembers fuel (c2 :: r2)).map (fun p => (.obj p.1, p.2))
            | [] => none
          else if c == '[' then
            match skipWs rest with
            | c2 :: r2 =>
                if c2 == ']' then some (.arr [], r2)
                else
                  (parseJsonElems fuel (c2 :: r2)).map (fun p => (.arr p.1, p.2))
            | [] => none
          else if c == 't' then
            (expectChars ['r', 'u', 'e'] rest).map (fun r => (.bool true, r))
          else if c == 'f' then
            (expectChars ['a', 'l', 's', 'e'] rest).map (fun r => (.bool false, r))
          else if c == 'n' then
            (expectChars ['u', 'l', 'l'] rest).map (fun r => (.null, r))
          else if c == '-' || c.isDigit then
            parseIntLit (c :: rest)
          else none

/-- One or more `"key": value` members followed by a closing brace. -/
def parseJsonMembers : Nat → List Char → Option (List (String × Json) × List Char)
  | 0, _ => none
  | fuel + 1, cs =>
      match skipWs cs with
      | '"' :: rest =>
          match parseStringBody rest with
          | none => none
          | some (key, r1) =>
              match skipWs r1 with
              | ':' :: r2 =>
                  match parseJsonValue fuel r2 with
                  | none => none
                  | some (v, r3) =>
                      match skipWs r3 with
                      | ',' :: r4 =>
                          (parseJsonMembers fuel r4).map
                            (fun p => ((String.mk key, v) :: p.1, p.2))
                      | c :: r4 =>
                          if c == rbrace then some ([(String.mk key, v)], r4)
                          else none
                      | [] => none
              | _ => none
      | _ => none

/-- One or more array elements followed by a closing bracket. -/
def parseJsonElems : Nat → List Char → Option (List Json × List Char)
  | 0, _ => none
  | fuel + 1, cs =>
      match parseJsonValue fuel cs with
      | none => none
      | some (v, r1) =>
          match skipWs r1 with
          | ',' :: r2 => (parseJsonElems fuel r2).map (fun p => (v :: p.1, p.2))
          | ']' :: r2 => some ([v], r2)
          | _ => none

end

/-- `json.loads` on a whole document: one value, with only whitespace
allowed after it. -/
def json_loads (s : String) : Option Json :=
  match parseJsonValue (s.data.length + 1) s.data with
  | some (j, rest) => if (skipWs rest).isEmpty then some j else none
  | none => none

/-- Stable ascending insertion of a field by key (Python `sorted` on the
dict keys; dict keys are unique, so stability is moot). -/
def insertField (p : String × Json) : List (String × Json) → List (String × Json)
  | [] => [p]
  | q :: rest => if p.1 < q.1 then p :: q :: rest else q :: insertField p rest

/-- Object fields in ascending key order (`sort_keys=True`). -/
def sortFields (fs : List (String × Json)) : List (String × Json) :=
  fs.foldr insertField []

/-- `json.dumps` escaping of one string character.  The common escapes
are produced; other control characters and the `ensure_ascii` `\uXXXX`
escaping of non-ASCII characters are outside the modelled fragment (no
claim serialises such a string). -/
def dumpChar (c : Char) : List Char :=
  if c == '"' then ['\\', '"']
  else if c == '\\' then ['\\', '\\']
  else if c == '\n' then ['\\', 'n']
  else if c == '\t' then ['\\', 't']
  else if c == '\r' then ['\\', 'r']
  else [c]

/-- A JSON string literal as `json.dumps` renders it. -/
def dumpString (s : String) : String :=
  String.mk ('"' :: (s.data.foldr (fun c acc => dumpChar c ++ acc) ['"']))

mutual

/-- `json.dumps(value, sort_keys=True)` with the default separators
`", "` and `": "`, fuelled by term size (every recursive call descends
into a strict subterm, so fuel `Json.fuelOf j` is always adequate; the
fuel-0 branch is unreachable). -/
def dumpJsonF : Nat → Json → String
  | 0, _ => ""
  | _ + 1, .null => "null"
  | _ + 1, .bool true => "true"
  | _ + 1, .bool false => "false"
  | _ + 1, .num n => toString n
  | _ + 1, .str s => dumpString s
  | fuel + 1, .arr xs => "[" ++ dumpElemsF fuel xs ++ "]"
  | fuel + 1, .obj fs =>
      String.mk [lbrace] ++ dumpFieldsF fuel (sortFields fs) ++ String.mk [rbrace]

/-- Comma-separated array elements. -/
def dumpElemsF : Nat → List Json → String
  | 0, _ => ""
  | _ + 1, [] => ""
  | fuel + 1, [x] => dumpJsonF fuel x
  | fuel + 1, x :: y :: rest => dumpJsonF fuel x ++ ", " ++ dumpElemsF fuel (y :: rest)

/-- Comma-separated `"key": value` members. -/
def dumpFieldsF : Nat → List (String × Json) → String
  | 0, _ => ""
  | _ + 1, [] => ""
  | fuel + 1, [(k, v)] => dumpString k ++ ": " ++ dumpJsonF fuel v
  | fuel + 1, (k, v) :: q :: rest =>
      dumpString k ++ ": " ++ dumpJsonF fuel v ++ ", " ++ dumpFieldsF fuel (q :: rest)

end

mutual

/-- A fuel bound dominating the recursion depth of `dumpJsonF`. -/
def Json.fuelOf : Json → Nat
  | .null | .bool _ | .num _ | .str _ => 1
  | .arr xs => 1 + Json.fuelOfList xs
  | .obj fs => 1 + Json.fuelOfFields fs

/-- Fuel bound for a list of values. -/
def Json.fuelOfList : List Json → Nat
  | [] => 1
  | x :: rest => 1 + Json.fuelOf x + Json.fuelOfList rest

/-- Fuel bound for object fields. -/
def Json.fuelOfFields : List (String × Json) → Nat
  | [] => 1
  | (_, v) :: rest => 1 + Json.fuelOf v + Json.fuelOfFields rest

end

/-- `json.dumps(j, sort_keys=True)`. -/
def json_dumps (j : Json) : String := dumpJsonF (Json.fuelOf j) j

/- ===================== utils/request_deduplicator.py ===================== -/

/-- `params` of `RequestDeduplicator` calls: `None` or a Python dict of
JSON-serialisable values, as an insertion-ordered association list. -/
def DedupParams : Type := Option (List (String × Json))

/-- Python truthiness of `params` as tested by `if params:` in
`_generate_key`: `None` and the empty dict are both falsy. -/
def paramsTruthy : DedupParams → Bool
  | none => false
  | some [] => false
  | some (_ :: _) => true

/-- The string `_generate_key` feeds to `hashlib.sha256`
(request_deduplicator.py lines 95-103): the endpoint, a colon, then
`params_str`, where `params_str` is `json.dumps(params, sort_keys=True)` when `params`
is truthy and `""` otherwise. -/
def generate_key_input (endpoint : String) (params : DedupParams) : String :=
  let params_str :=
    if paramsTruthy params then json_dumps (.obj (params.getD [])) else ""
  endpoint ++ ":" ++ params_str

/-- `RequestDeduplicator._generate_key`: the SHA-256 hex digest of
`generate_key_input`.  The digest itself is kept abstract as a function
`sha256hex`; every property proved below holds for an arbitrary such
function, using only that equal inputs give equal digests. -/
def generate_key (sha256hex : String → String) (endpoint : String)
    (params : DedupParams) : String :=
  sha256hex (generate_key_input endpoint params)

/-- First-match association-list lookup (Python `dict.get` / `in`). -/
def alookup {κ β : Type} [DecidableEq κ] : List (κ × β) → κ → Option β
  | [], _ => none
  | (k', v) :: rest, k => if k' = k then some v else alookup rest k

/-- Remove the entry for a key (Python `del d[k]`; keys are unique in a
dict, so removing the first match is removing the entry). -/
def adel {κ β : Type} [DecidableEq κ] : List (κ × β) → κ → List (κ × β)
  | [], _ => []
  | (k', v) :: rest, k => if k' = k then rest else (k', v) :: adel rest k

/-- Python `d[k] = v`: update in place when present (keeping the
position of the entry in insertion order), else append. -/
def aset {κ β : Type} [DecidableEq κ] : List (κ × β) → κ → β → List (κ × β)
  | [], k, v => [(k, v)]
  | (k', v') :: rest, k, v =>
      if k' = k then (k', v) :: rest else (k', v') :: aset rest k v

/-- `OrderedDict.move_to_end(k)` on a present key. -/
def moveToEnd {κ β : Type} [DecidableEq κ] (l : List (κ × β)) (k : κ) : List (κ × β) :=
  match alookup l k with
  | some v => adel l k ++ [(k, v)]
  | none => l

/-- State of one `asyncio.Future`: unsettled, settled by `set_result`,
settled by `set_exception`, or cancelled. -/
inductive FutureState (α : Type) where
  | pendingF : FutureState α
  | resolved (v : α) : FutureState α
  | rejected (e : SNError) : FutureState α
  | cancelled : FutureState α

/-- `Future.done()`: settled in any way. -/
def FutureState.done {α : Type} : FutureState α → Bool
  | .pendingF => false
  | _ => true

/-- State of a `RequestDeduplicator` producing results of type `α`.
`pending` is the `_pending` dict (key to future id and the
`PendingRequest.timestamp`), `completed` the `_completed` OrderedDict
(front = least recently used), and `futures` the table of all
`asyncio.Future` objects the instance ever created, keyed by an
allocation counter.  Keys are the strings fed to the hash, standing for
their SHA-256 digests (equal inputs hash equal; collisions between
distinct inputs are not modelled). -/
structure Dedup (α : Type) where
  ttl_seconds : ℚ
  max_pending : Nat
  max_cached : Nat
  pending : List (String × Nat × ℚ)
  completed : List (String × α)
  futures : List (Nat × FutureState α)
  nextFuture : Nat
  hits : Nat
  misses : Nat
  errors : Nat

/-- `RequestDeduplicator.__init__`. -/
def Dedup.init (α : Type) (ttl : ℚ) (maxPending maxCached : Nat) : Dedup α :=
  { ttl_seconds := ttl, max_pending := maxPending, max_cached := maxCached
    pending := [], completed := [], futures := [], nextFuture := 0
    hits := 0, misses := 0, errors := 0 }

/-- What one `execute` call does after its synchronous prefix: return a
cached value, await the future registered by an earlier in-flight call,
or (having registered future `fid`) invoke the operation itself. -/
inductive ExecOutcome (α : Type) where
  | cachedHit (v : α)
  | awaitShared (fid : Nat)
  | invoke (fid : Nat)

/-- `pending.future.done()` for the future id found in `_pending` (the
table always holds every id that `_pending` references, so the
missing-id branch is unreachable). -/
def Dedup.futureDone {α : Type} (s : Dedup α) (fid : Nat) : Bool :=
  match alookup s.futures fid with
  | some st => st.done
  | none => true

/-- The miss path of `execute` (request_deduplicator.py lines 151-166):
count the miss, create a fresh future, evict the oldest pending entry
(`next(iter(...))` = first in insertion order) when at capacity — the
eviction only deletes the dict entry, it does not touch the evicted
future — and register the new pending entry.  (With `max_pending = 0`
and no pending entry Python would raise `StopIteration` from
`next(iter({}))`; the model leaves the empty dict unchanged there, and
every theorem below assumes `1 ≤ max_pending`.) -/
def Dedup.missPath {α : Type} (s : Dedup α) (key : String) (now : ℚ) :
    Dedup α × ExecOutcome α :=
  let fid := s.nextFuture
  let pend :=
    if s.max_pending ≤ s.pending.length then s.pending.drop 1 else s.pending
  ({ s with
      misses := s.misses + 1
      futures := s.futures ++ [(fid, .pendingF)]
      nextFuture := fid + 1
      pending := pend ++ [(key, fid, now)] },
   .invoke fid)

/-- The synchronous prefix of `RequestDeduplicator.execute`
(request_deduplicator.py lines 126-166), from key lookup to the point
where the caller either returns a cached result, starts awaiting the
shared future, or has registered its own future and is about to invoke
`func`.  Under the asyncio cooperative scheduling this whole prefix runs
without a suspension point, hence atomically with respect to other
`execute` calls.  NOTE: when the outcome is `awaitShared`, the caller
suspends at `return await pending.future` while still INSIDE the
`with self._pending_lock:` block (lines 139-146) — it holds that
`threading.Lock` across the suspension; `DedupSystem` below tracks
this. -/
def Dedup.executeStart {α : Type} (s : Dedup α) (key : String) (use_cache : Bool)
    (now : ℚ) : Dedup α × ExecOutcome α :=
  match (if use_cache then alookup s.completed key else none) with
  | some v =>
      ({ s with hits := s.hits + 1, completed := moveToEnd s.completed key },
       .cachedHit v)
  | none =>
      match alookup s.pending key with
      | some (fid, _) =>
          if s.futureDone fid then
            -- stale settled future: drop the pending entry, fall to the miss
            -- path (the hit counter was already bumped on entry to this branch)
            Dedup.missPath
              { s with hits := s.hits + 1, pending := adel s.pending key } key now
          else
            ({ s with hits := s.hits + 1 }, .awaitShared fid)
      | none => Dedup.missPath s key now

/-- `future.set_result` / `set_exception`: settle the future if it is
still unsettled.  (Python raises `InvalidStateError` on a settled
future; `execute` only settles the private future it just created, so
that branch is unreachable and the model leaves such an entry as is.) -/
def settleFuture {α : Type} (l : List (Nat × FutureState α)) (fid : Nat)
    (st : FutureState α) : List (Nat × FutureState α) :=
  l.map (fun p =>
    match p with
    | (i, .pendingF) => (i, if i = fid then st else .pendingF)
    | q => q)

/-- The try-block epilogue of the invoking caller
(request_deduplicator.py lines 168-187), which runs BEFORE the
`finally` block: on success optionally insert into the completed LRU
cache (evicting the least recently used entry when at capacity) and
`set_result` the shared future; on failure count the error and
`set_exception` it.  The `finally` block itself (lines 189-193) must
first acquire `_pending_lock` synchronously; that acquisition is made
explicit in `DedupSystem.stepTask` below. -/
def Dedup.winnerSettle {α : Type} (s : Dedup α) (key : String) (fid : Nat)
    (use_cache : Bool) (r : Except SNError α) : Dedup α :=
  match r with
  | .ok v =>
      let comp :=
        if use_cache then
          let c :=
            if s.max_cached ≤ s.completed.length then s.completed.drop 1
            else s.completed
          aset c key v
        else s.completed
      { s with
          completed := comp
          futures := settleFuture s.futures fid (.resolved v) }
  | .error e =>
      { s with
          errors := s.errors + 1
          futures := settleFuture s.futures fid (.rejected e) }

/-- What a caller awaiting future `fid` observes once it is settled. -/
def Dedup.futureResult {α : Type} (s : Dedup α) (fid : Nat) :
    Option (Except SNError α) :=
  match alookup s.futures fid with
  | some (.resolved v) => some (.ok v)
  | some (.rejected e) => some (.error e)
  | _ => none

/-- `future.cancel()` on every entry of the table with this id that is
still unsettled (a settled future ignores `cancel`). -/
def cancelFuture {α : Type} (l : List (Nat × FutureState α)) (fid : Nat) :
    List (Nat × FutureState α) :=
  l.map (fun p =>
    match p with
    | (i, .pendingF) => (i, if i = fid then .cancelled else .pendingF)
    | q => q)

/-- `RequestDeduplicator.clear_pending` (request_deduplicator.py lines
219-232): cancel every still-unsettled pending future, empty the pending
dict, return how many entries were cleared. -/
def Dedup.clear_pending {α : Type} (s : Dedup α) : Dedup α × Nat :=
  let futs := s.pending.foldl (fun fs p => cancelFuture fs p.2.1) s.futures
  ({ s with pending := [], futures := futs }, s.pending.length)

/-- Where one `execute` caller stands in the cooperative run: about to
run its synchronous prefix; suspended inside `await func()`; suspended
at `return await pending.future` (still inside the
`with self._pending_lock:` block, so holding the lock); resumed after
`func` with its outcome, about to run lines 168-193; finished with the
value or error it returns or re-raises; or stuck in the synchronous
`_pending_lock` acquisition of the `finally` block. -/
inductive ExecPhase (α : Type) where
  | ready : ExecPhase α
  | inFunc (fid : Nat) : ExecPhase α
  | awaitingFuture (fid : Nat) : ExecPhase α
  | finishing (fid : Nat) (r : Except SNError α) : ExecPhase α
  | completed (r : Except SNError α) : ExecPhase α
  | blockedOnLock (fid : Nat) (r : Except SNError α) : ExecPhase α
deriving Repr

/-- The single-threaded asyncio process running several `execute` calls
with the same key: the deduplicator state, which task (if any) is
suspended while holding `_pending_lock`, each task phase, and whether
the one event-loop thread is blocked inside a synchronous
`Lock.acquire` — after which nothing in the process can ever run again.
(`_completed_lock` is never held across a suspension, hence never
contended, and is not tracked.) -/
structure DedupSystem (α : Type) where
  dedup : Dedup α
  lockHolder : Option Nat
  tasks : List (ExecPhase α)
  halted : Bool

/-- `n` concurrent callers about to enter `execute` on state `d`. -/
def DedupSystem.init {α : Type} (d : Dedup α) (n : Nat) : DedupSystem α :=
  { dedup := d, lockHolder := none, tasks := List.replicate n .ready
    halted := false }

/-- Run the next segment of task `i` — up to its next suspension point
or to completion — on the one event-loop thread.  `r` is the outcome
`await func()` delivers to whichever task invokes the operation.
`threading.Lock` is not reentrant and its `acquire` blocks the whole
thread, so any attempt to take `_pending_lock` while a suspended waiter
holds it halts the loop for good. -/
def DedupSystem.stepTask {α : Type} (key : String) (use_cache : Bool) (now : ℚ)
    (r : Except SNError α) (sys : DedupSystem α) (i : Nat) : DedupSystem α :=
  if sys.halted then sys
  else
    match sys.tasks.get? i with
    | none => sys
    | some .ready =>
        -- lines 126-166: the synchronous prefix takes _pending_lock
        (match sys.lockHolder with
         | some _ => { sys with halted := true }
         | none =>
             let p := sys.dedup.executeStart key use_cache now
             match p.2 with
             | .cachedHit v =>
                 { sys with dedup := p.1
                            tasks := sys.tasks.set i (.completed (.ok v)) }
             | .awaitShared fid =>
                 -- 'return await pending.future' inside the with-block:
                 -- the task suspends still holding _pending_lock
                 { sys with dedup := p.1
                            tasks := sys.tasks.set i (.awaitingFuture fid)
                            lockHolder := some i }
             | .invoke fid =>
                 { sys with dedup := p.1
                            tasks := sys.tasks.set i (.inFunc fid) })
    | some (.inFunc fid) =>
        -- await func() resumes with outcome r
        { sys with tasks := sys.tasks.set i (.finishing fid r) }
    | some (.awaitingFuture fid) =>
        -- a waiter resumes only once the future is settled (and only
        -- while the loop still runs); resuming leaves the with-block,
        -- releasing _pending_lock
        (match sys.dedup.futureResult fid with
         | some res =>
             { sys with tasks := sys.tasks.set i (.completed res)
                        lockHolder :=
                          if sys.lockHolder = some i then none
                          else sys.lockHolder }
         | none => sys)
    | some (.finishing fid r0) =>
        -- lines 168-187 run lock-free, then the finally block (lines
        -- 189-193) must acquire _pending_lock synchronously
        let d1 := sys.dedup.winnerSettle key fid use_cache r0
        (match sys.lockHolder with
         | some _ =>
             { sys with dedup := d1
                        tasks := sys.tasks.set i (.blockedOnLock fid r0)
                        halted := true }
         | none =>
             { sys with dedup := { d1 with pending := adel d1.pending key }
                        tasks := sys.tasks.set i (.completed r0) })
    | some (.completed _) => sys
    | some (.blockedOnLock _ _) => sys

/-- Run a schedule of task activations. -/
def DedupSystem.run {α : Type} (key : String) (use_cache : Bool) (now : ℚ)
    (r : Except SNError α) (sys : DedupSystem α) (sched : List Nat) :
    DedupSystem α :=
  sched.foldl (DedupSystem.stepTask key use_cache now r) sys

/- ===================== utils/http.py / utils/connection.py ===================== -/

/-- One character of the class `[a-zA-Z0-9_-]` in `CHANNEL_ID_PATTERN`. -/
def isChannelIdChar (c : Char) : Bool :=
  ('a' ≤ c && c ≤ 'z') || ('A' ≤ c && c ≤ 'Z') || c.isDigit || c == '-' || c == '_'

/-- `validate_channel_id` (utils/http.py lines 36-47): falsy (empty)
strings are rejected, then `re.match` against
`^[a-zA-Z0-9_-]{1,256}$` decides.  In the Python `re` module, `$` also matches
just before one trailing newline, so `body ++ "\n"` is accepted whenever
`body` is; the second disjunct reproduces that. -/
def validate_channel_id (s : String) : Bool :=
  let matchesPat : List Char → Bool := fun cs =>
    1 ≤ cs.length && cs.length ≤ 256 && cs.all isChannelIdChar
  if s.data.isEmpty then false
  else
    matchesPat s.data ||
      (match s.data.getLast? with
       | some '\n' => matchesPat (s.data.dropLast)
       | _ => false)

/-- The `ConnectionState` enum of utils/connection.py. -/
inductive ConnectionState where
  | disconnected
  | connecting
  | connected
  | reconnecting
deriving DecidableEq, Repr

/-- What the synchronous prefix of `SSEClient.connect`
(utils/connection.py lines 102-124) does before the first network read:
`result` is the `ValueError` raised for a malformed channel id (`.ok`
otherwise), `stateAfter` the `_state` field when that prefix finishes,
and `networkAttempted` whether the streaming request was issued.
Validation runs first: a rejected channel leaves the state untouched
and issues no request. -/
structure ConnectPrefixObs where
  result : Except SNError Unit
  stateAfter : ConnectionState
  networkAttempted : Bool
deriving Repr

/-- The error message `connect` formats for an invalid channel id. -/
def invalidChannelMsg (channel : String) : String :=
  "Invalid channel ID \x27" ++ channel ++ "\x27. " ++
    "Channel ID must be 1-256 characters and contain only alphanumeric characters, hyphens, and underscores."

/-- The synchronous prefix of `SSEClient.connect` on a client whose
current state is `s0`. -/
def connectPrefix (channel : String) (s0 : ConnectionState) : ConnectPrefixObs :=
  if validate_channel_id channel then
    { result := .ok (), stateAfter := .connecting, networkAttempted := true }
  else
    { result := .error (.valueError (invalidChannelMsg channel))
      stateAfter := s0
      networkAttempted := false }

/-- Outcome of one whole `_reconnect` run (utils/connection.py lines
279-306) against an abstract connection opener: `sleeps` the successive
`asyncio.sleep` durations, `attempts` how many times `connect` was
re-entered, `finalState` the `_state` field when `_reconnect` returns or
raises, `outcome` its return (`.ok`) or raised error.  `open_ok k` tells
whether the `k`-th `connect(channel)` call (0-indexed) succeeds; the
`_stop_event` flag is never set in the scenarios modelled (no
`disconnect` call is issued). -/
structure ReconnectRun where
  sleeps : List ℚ
  attempts : Nat
  finalState : ConnectionState
  outcome : Except SNError Unit
deriving Repr

/-- The `for attempt in range(max_reconnect_attempts)` loop of
`_reconnect`: before each attempt sleep
`reconnect_delay * 2 ** min(attempt, 5)`, then try `connect`; a success
leaves the loop with state Connected; exhaustion sets the state to
Disconnected and raises `SecureNotifyConnectionError`. -/
def reconnectLoop (delay : ℚ) (open_ok : Nat → Bool) (maxAttempts : Nat) :
    Nat → Nat → ReconnectRun
  | _, 0 =>
      { sleeps := []
        attempts := 0
        finalState := .disconnected
        outcome := .error (.connectionError
          ("Failed to reconnect after " ++ toString maxAttempts ++ " attempts")) }
  | attempt, fuel + 1 =>
      let d := delay * 2 ^ min attempt 5
      if open_ok attempt then
        { sleeps := [d], attempts := 1, finalState := .connected, outcome := .ok () }
      else
        let r := reconnectLoop delay open_ok maxAttempts (attempt + 1) fuel
        { r with sleeps := d :: r.sleeps, attempts := r.attempts + 1 }

/-- `SSEClient._reconnect` with `max_reconnect_attempts = maxAttempts`
and an unset `_stop_event`. -/
def reconnect (delay : ℚ) (open_ok : Nat → Bool) (maxAttempts : Nat) : ReconnectRun :=
  reconnectLoop delay open_ok maxAttempts 0 maxAttempts

/- ========== SSE event-frame reader (_event_listener / _handle_event) ========== -/

/-- The payload handed to a channel handler by `_handle_event`: the
`data` field text parsed by `json.loads` when it starts with an opening
brace, the raw text otherwise (also on parse failure). -/
inductive SSEPayload where
  | jsonData (j : Json)
  | rawData (s : String)

/-- `parsed_data = json.loads(data) if data.startswith(...) else data`
with the `JSONDecodeError` fallback (utils/connection.py lines 240-244). -/
def parsePayload (data : String) : SSEPayload :=
  match data.data with
  | c :: _ =>
      if c == lbrace then
        match json_loads data with
        | some j => .jsonData j
        | none => .rawData data
      else .rawData data
  | [] => .rawData data

/-- One frame dispatched by `_handle_event`: the accumulated event type,
the parsed data payload, and the event id accompanying the `data` line. -/
structure SSEFrame where
  eventType : String
  payload : SSEPayload
  eventId : Option String

/-- The reader state carried across chunks by `_event_listener` plus the
client fields `_handle_event` touches: the unconsumed buffer tail, the
accumulated `event`/`id` fields, every frame dispatched so far,
`_last_event_id`, the (possibly `retry`-updated) `reconnect_delay`, and
how many times the heartbeat timer was reset by a dispatched frame. -/
structure ListenerState where
  buffer : List Char
  eventType : List Char
  eventId : Option (List Char)
  frames : List SSEFrame
  lastEventId : Option (List Char)
  reconnectDelay : ℚ
  heartbeatResets : Nat

/-- The reader state right after `connect` starts `_event_listener`. -/
def ListenerState.start (delay : ℚ) : ListenerState :=
  { buffer := [], eventType := "message".data, eventId := none, frames := []
    lastEventId := none, reconnectDelay := delay, heartbeatResets := 0 }

/-- Python `str.rstrip(c)`: drop every trailing occurrence of `c`. -/
def rstripChar (c : Char) (cs : List Char) : List Char :=
  (cs.reverse.dropWhile (fun x => x == c)).reverse

/-- Split at the first occurrence of `c` (Python `str.split(c, 1)`),
returning the part before and the part after when `c` occurs. -/
def splitFirst (c : Char) : List Char → Option (List Char × List Char)
  | [] => none
  | x :: rest =>
      if x == c then some ([], rest)
      else (splitFirst c rest).map (fun p => (x :: p.1, p.2))

/-- Python `float(value)` for the `retry:` field, on the fragment
`[-]digits[.digits]`; other accepted float syntaxes (exponents,
`inf`/`nan`, surrounding whitespace) are outside the modelled fragment.
`none` models the `ValueError` that the source swallows. -/
def parseFloatLit (cs : List Char) : Option ℚ :=
  let core : List Char → Option ℚ := fun ds =>
    match splitFirst '.' ds with
    | none => if ds.isEmpty || !ds.all Char.isDigit then none
              else some ((digitsToNat ds : ℤ) : ℚ)
    | some (intPart, fracPart) =>
        if intPart.all Char.isDigit && fracPart.all Char.isDigit
            && !(intPart.isEmpty && fracPart.isEmpty) then
          some (((digitsToNat intPart : ℤ) : ℚ) +
            ((digitsToNat fracPart : ℤ) : ℚ) / ((10 : ℚ) ^ fracPart.length))
        else none
  match cs with
  | '-' :: rest => (core rest).map (fun q => -q)
  | _ => core cs

/-- `SSEClient._handle_event` (utils/connection.py lines 217-256) as a
state update: record the resumption id when the event id is truthy
(non-empty), count the heartbeat-timer reset, parse the payload, and
dispatch the frame to the registered handler (a handler error is caught
and logged, so dispatch always completes). -/
def handle_event (s : ListenerState) (eventType : List Char) (data : List Char)
    (eventId : Option (List Char)) : ListenerState :=
  let s :=
    match eventId with
    | some (c :: cs) => { s with lastEventId := some (c :: cs) }
    | _ => s
  { s with
      heartbeatResets := s.heartbeatResets + 1
      frames := s.frames ++
        [{ eventType := String.mk eventType
           payload := parsePayload (String.mk data)
           eventId := eventId.map String.mk }] }

/-- One iteration body of the `while "\n" in buffer_value` loop of
`_event_listener` (utils/connection.py lines 170-206), applied to a
complete `line`. -/
def processLine (s : ListenerState) (line : List Char) : ListenerState :=
  let line := rstripChar '\r' line
  match line with
  | ':' :: _ => s
  | _ =>
      match splitFirst ':' line with
      | some (field, rawValue) =>
          let value := rawValue.dropWhile (fun c => c == ' ')
          if field = "event".data then { s with eventType := value }
          else if field = "id".data then { s with eventId := some value }
          else if field = "data".data then
            let s := handle_event s s.eventType value s.eventId
            { s with eventType := "message".data, eventId := none }
          else if field = "retry".data then
            match parseFloatLit value with
            | some q => { s with reconnectDelay := q }
            | none => s
          else s
      | none =>
          if line.isEmpty then
            { s with eventType := "message".data, eventId := none }
          else s

/-- The `while` loop itself: as long as the buffer holds a newline,
split off the first complete line and process it.  Fuelled by the buffer
length (every iteration removes at least the newline). -/
def processBuffer (fuel : Nat) (s : ListenerState) : ListenerState :=
  match fuel with
  | 0 => s
  | fuel + 1 =>
      match splitFirst '\n' s.buffer with
      | some (line, rest) => processBuffer fuel (processLine { s with buffer := rest } line)
      | none => s

/-- One `async for chunk in response.aiter_text()` step of
`_event_listener`: write the chunk into `event_buffer`, take
`getvalue()`, then drain complete lines.  After the previous chunk the
source rebuilt the buffer as `io.StringIO(buffer_value)`
(utils/connection.py line 209), which leaves the stream POSITION AT 0,
so this `event_buffer.write(chunk)` OVERWRITES the first
`len(chunk)` characters of the carried-over text rather than appending
after it: `getvalue()` yields the chunk followed by whatever tail of
the leftover extends beyond it.  (On the very first chunk the buffer is
empty and the write is harmless.) -/
def feedChunk (s : ListenerState) (chunk : List Char) : ListenerState :=
  let s := { s with buffer := chunk ++ s.buffer.drop chunk.length }
  processBuffer (s.buffer.length + 1) s

/-- Deliver a sequence of stream chunks to the reader. -/
def feedChunks (s : ListenerState) (chunks : List (List Char)) : ListenerState :=
  chunks.foldl feedChunk s

/- ========== Heartbeat timer (_heartbeat_monitor and its lifecycle) ========== -/

/-- The heartbeat-relevant slice of an `SSEClient`: the set of pending
(sleeping) `_heartbeat_monitor` tasks by task id, a counter for fresh
task ids, the `_heartbeat_task` reference field, how many times the
registered `__heartbeat__` handler ran, and `_state`. -/
structure HeartbeatSlice where
  pendingTimers : List Nat
  nextTimer : Nat
  heartbeatTask : Option Nat
  handlerCalls : Nat
  connState : ConnectionState

/-- The slice right after a successful `connect` scheduled the first
`_heartbeat_monitor` task (utils/connection.py line 136). -/
def HeartbeatSlice.afterConnect : HeartbeatSlice :=
  { pendingTimers := [0], nextTimer := 1, heartbeatTask := some 0
    handlerCalls := 0, connState := .connected }

/-- The two events that drive the heartbeat timer between frames. -/
inductive HeartbeatEvent where
  | fire
  | frameDispatched

/-- One heartbeat lifecycle step.  `fire`: a pending
`_heartbeat_monitor` task wakes from its single `asyncio.sleep`
(utils/connection.py lines 258-277), invokes the `__heartbeat__` handler
when one is registered (`hasHandler`), and the task then completes —
nothing recreates it, and `_state` is not touched.  `frameDispatched`:
the heartbeat-reset block of `_handle_event` (lines 236-238) cancels the
task referenced by `_heartbeat_task`, if any, and schedules a fresh
`_heartbeat_monitor` task in its place; with no referenced task it does
nothing. -/
def heartbeatStep (hasHandler : Bool) (ev : HeartbeatEvent) (s : HeartbeatSlice) :
    HeartbeatSlice :=
  match ev with
  | .fire =>
      match s.pendingTimers with
      | [] => s
      | _ :: rest =>
          { s with
              pendingTimers := rest
              handlerCalls := s.handlerCalls + (if hasHandler then 1 else 0) }
  | .frameDispatched =>
      match s.heartbeatTask with
      | none => s
      | some t =>
          { s with
              pendingTimers := (s.pendingTimers.filter (fun x => x ≠ t)) ++ [s.nextTimer]
              heartbeatTask := some s.nextTimer
              nextTimer := s.nextTimer + 1 }

/-- Run a sequence of heartbeat events. -/
def heartbeatRun (hasHandler : Bool) (evs : List HeartbeatEvent)
    (s : HeartbeatSlice) : HeartbeatSlice :=
  evs.foldl (fun st ev => heartbeatStep hasHandler ev st) s

/-- Consistency of the heartbeat slice between fire/reset events: either
no timer is pending, or exactly the one task that `_heartbeat_task`
references is pending. -/
def HeartbeatWf (s : HeartbeatSlice) : Prop :=
  s.pendingTimers = [] ∨ ∃ t, s.heartbeatTask = some t ∧ s.pendingTimers = [t]

/- ===================== Theorems ===================== -/

/-- The invocation counter of the retry loop never exceeds the fuel. -/
theorem withRetryAux_count_le {α : Type} (cfg : RetryConfig) (f : Nat → Except SNError α) :
    ∀ (fuel attempt : Nat) (last : Option SNError),
      (withRetryAux cfg f attempt fuel last).1 ≤ fuel := by
  intro fuel
  induction fuel with
  | zero => intro a last; simp [withRetryAux]
  | succ n ih =>
      intro a last
      simp only [withRetryAux]
      cases f a with
      | ok v => simp
      | error e =>
          by_cases h : cfg.should_retry e a = true
          · simp only [h, if_true]
            exact Nat.succ_le_succ (ih (a + 1) (some e))
          · simp [h]

/-- C2.  Retry attempt budget: `with_retry` under a configuration with
`max_retries = n` invokes the operation at most `n + 1` times, for every
operation; and with `max_retries = 2` and an operation that always raises
a retryable `SecureNotifyConnectionError` or `SecureNotifyTimeoutError`,
the operation runs exactly 3 times and that very error is re-raised
unchanged, with no wrapping. -/
theorem retry_attempt_budget :
    (∀ (α : Type) (cfg : RetryConfig) (f : Nat → Except SNError α),
        (with_retry cfg f).1 ≤ cfg.max_retries + 1)
    ∧ (∀ (α : Type) (m : String),
        with_retry (defaultRetryConfig 2)
            (fun _ => (.error (.connectionError m) : Except SNError α)) =
          (3, .error (.connectionError m)))
    ∧ (∀ (α : Type) (m : String),
        with_retry (defaultRetryConfig 2)
            (fun _ => (.error (.timeoutError m) : Except SNError α)) =
          (3, .error (.timeoutError m))) := by
  refine ⟨?_, ?_, ?_⟩
  · intro α cfg f
    exact withRetryAux_count_le cfg f (cfg.max_retries + 1) 0 none
  · intro α m; rfl
  · intro α m; rfl

/-- Under the default exception classes, an API error whose code is not
in `RETRYABLE_ERRORS` is never retried, at any attempt. -/
theorem should_retry_api_nonretryable (n k : Nat) (code : ErrorCode) (m : String)
    (hc : RETRYABLE_ERRORS.contains code = false) :
    (defaultRetryConfig n).should_retry (.apiError code m) k = false := by
  simp only [RetryConfig.should_retry, defaultRetryConfig, isinstanceOf,
    SNError.is_retryable, List.any_cons, List.any_nil, Bool.or_false, hc]
  split <;> simp [hc]

/-- Under the default exception classes, an operation that keeps raising
a non-retryable API error is invoked exactly once by `with_retry`, for
every `max_retries`. -/
theorem with_retry_api_nonretryable_once (α : Type) (n : Nat) (code : ErrorCode)
    (m : String) (hc : RETRYABLE_ERRORS.contains code = false) :
    with_retry (defaultRetryConfig n)
        (fun _ => (.error (.apiError code m) : Except SNError α)) =
      (1, .error (.apiError code m)) := by
  have h := should_retry_api_nonretryable n 0 code m hc
  simp [with_retry, withRetryAux, h]

/-- C3.  Error classification: `should_retry` is false whenever the
attempt number has reached `max_retries`; under the default classes the
API-error branch consults the per-error `is_retryable` predicate, so
rate-limited and server-unavailable API errors are retried below the
budget while authentication, validation, not-found and resource-conflict
errors cause exactly one invocation regardless of `max_retries`;
connection and timeout errors are retried below the budget; and error
kinds outside the classification (the plain SDK base error and foreign
exceptions) are never retried (fail closed). -/
theorem retry_error_classification :
    (∀ (cfg : RetryConfig) (e : SNError) (k : Nat),
        cfg.should_retry e (cfg.max_retries + k) = false)
    ∧ (∀ (n k : Nat) (m : String),
        (defaultRetryConfig (k + n + 1)).should_retry
            (.apiError .RATE_LIMIT_EXCEEDED m) k = true
        ∧ (defaultRetryConfig (k + n + 1)).should_retry
            (.apiError .SERVICE_UNAVAILABLE m) k = true
        ∧ (defaultRetryConfig (k + n + 1)).should_retry (.connectionError m) k = true
        ∧ (defaultRetryConfig (k + n + 1)).should_retry (.timeoutError m) k = true)
    ∧ (∀ (α : Type) (n : Nat) (m : String),
        with_retry (defaultRetryConfig n)
            (fun _ => (.error (.apiError .AUTH_FAILED m) : Except SNError α)) =
          (1, .error (.apiError .AUTH_FAILED m))
        ∧ with_retry (defaultRetryConfig n)
            (fun _ => (.error (.apiError .VALIDATION_ERROR m) : Except SNError α)) =
          (1, .error (.apiError .VALIDATION_ERROR m))
        ∧ with_retry (defaultRetryConfig n)
            (fun _ => (.error (.apiError .NOT_FOUND m) : Except SNError α)) =
          (1, .error (.apiError .NOT_FOUND m))
        ∧ with_retry (defaultRetryConfig n)
            (fun _ => (.error (.apiError .RESOURCE_EXISTS m) : Except SNError α)) =
          (1, .error (.apiError .RESOURCE_EXISTS m))
        ∧ with_retry (defaultRetryConfig n)
            (fun _ => (.error (.apiError .CHANNEL_EXISTS m) : Except SNError α)) =
          (1, .error (.apiError .CHANNEL_EXISTS m))
        ∧ with_retry (defaultRetryConfig n)
            (fun _ => (.error (.authenticationError m) : Except SNError α)) =
          (1, .error (.authenticationError m)))
    ∧ (∀ (n k : Nat) (m : String),
        (defaultRetryConfig n).should_retry (.baseError m) k = false
        ∧ (defaultRetryConfig n).should_retry (.otherError m) k = false) := by
  refine ⟨?_, ?_, ?_, ?_⟩
  · intro cfg e k
    simp [RetryConfig.should_retry, Nat.le_add_right]
  · intro n k m
    have hk : ¬ (k + n + 1 ≤ k) := by omega
    refine ⟨?_, ?_, ?_, ?_⟩ <;>
      simp [RetryConfig.should_retry, defaultRetryConfig, isinstanceOf,
        SNError.is_retryable, RETRYABLE_ERRORS, hk]
  · intro α n m
    have hauth : (defaultRetryConfig n).should_retry (.authenticationError m) 0 = false := by
      simp only [RetryConfig.should_retry, defaultRetryConfig, isinstanceOf,
        List.any_cons, List.any_nil, Bool.or_false, Bool.or_self]
      split <;> rfl
    refine ⟨?_, ?_, ?_, ?_, ?_, ?_⟩
    · exact with_retry_api_nonretryable_once α n .AUTH_FAILED m (by decide)
    · exact with_retry_api_nonretryable_once α n .VALIDATION_ERROR m (by decide)
    · exact with_retry_api_nonretryable_once α n .NOT_FOUND m (by decide)
    · exact with_retry_api_nonretryable_once α n .RESOURCE_EXISTS m (by decide)
    · exact with_retry_api_nonretryable_once α n .CHANNEL_EXISTS m (by decide)
    · simp [with_retry, withRetryAux, hauth]
  · intro n k m
    constructor <;>
      (simp only [RetryConfig.should_retry, defaultRetryConfig, isinstanceOf,
        List.any_cons, List.any_nil, Bool.or_false, Bool.or_self]
       split <;> rfl)

set_option maxRecDepth 16000

/-- C9.  Channel id validation: `connect` accepts `"valid-channel"` and
`"A1_2-3"`, and rejects the empty string, `"has space"`, a 257-character
id and `"dot.id"` by raising its validation `ValueError` (named
ValidationFailure by the spec) synchronously — leaving the connection state exactly
as it was and issuing no network request. -/
theorem channel_id_validation :
    validate_channel_id "valid-channel" = true
    ∧ validate_channel_id "A1_2-3" = true
    ∧ (∀ s0 : ConnectionState, connectPrefix "valid-channel" s0 =
        { result := .ok (), stateAfter := .connecting, networkAttempted := true })
    ∧ (∀ s0 : ConnectionState, connectPrefix "A1_2-3" s0 =
        { result := .ok (), stateAfter := .connecting, networkAttempted := true })
    ∧ (∀ s0 : ConnectionState, connectPrefix "" s0 =
        { result := .error (.valueError (invalidChannelMsg ""))
          stateAfter := s0, networkAttempted := false })
    ∧ (∀ s0 : ConnectionState, connectPrefix "has space" s0 =
        { result := .error (.valueError (invalidChannelMsg "has space"))
          stateAfter := s0, networkAttempted := false })
    ∧ (∀ s0 : ConnectionState,
        connectPrefix (String.mk (List.replicate 257 'a')) s0 =
        { result := .error (.valueError (invalidChannelMsg (String.mk (List.replicate 257 'a'))))
          stateAfter := s0, networkAttempted := false })
    ∧ (∀ s0 : ConnectionState, connectPrefix "dot.id" s0 =
        { result := .error (.valueError (invalidChannelMsg "dot.id"))
          stateAfter := s0, networkAttempted := false }) :=
  ⟨rfl, rfl, fun _ => rfl, fun _ => rfl, fun _ => rfl, fun _ => rfl, fun _ => rfl,
   fun _ => rfl⟩

/-- C10 counterexample.  With the same endpoint, `params = None` and
`params =` the empty dict hash the very same input — the endpoint and
a colon with an empty params string, not the endpoint joined with the dict
serialisation — because `if params:` is false for an empty dict; so the
two calls receive the SAME key (shown with the digest function left as
the identity), not different ones. -/
theorem dedup_key_empty_params_counterexample :
    generate_key (fun s => s) "register_public_key" none =
      generate_key (fun s => s) "register_public_key" (some [])
    ∧ generate_key_input "register_public_key" (some []) = "register_public_key:" :=
  ⟨rfl, rfl⟩

/-- C10 (amended).  Absent and empty parameters are NOT distinct: for
every endpoint, both `params = None` and `params =` the empty dict are
falsy under `if params:`, so `_generate_key` hashes
`endpoint ++ ":" ++ ""` in both cases and any digest function assigns
both calls the same key — they are deduplicated and cache-shared with
each other. -/
theorem dedup_key_none_empty_same (sha256hex : String → String) (endpoint : String) :
    generate_key sha256hex endpoint none = generate_key sha256hex endpoint (some [])
    ∧ generate_key_input endpoint none = endpoint ++ ":"
    ∧ generate_key_input endpoint (some []) = endpoint ++ ":" := by
  refine ⟨rfl, ?_, ?_⟩ <;> simp [generate_key_input, paramsTruthy]


/-- C4 counterexample.  Two back-to-back `acquire` calls on a fresh
1-token bucket: the second goes through the waited-suspension grant
path, which decrements without refilling, and leaves the token count at
`-1` — outside `[0, capacity]`. -/
theorem rate_limiter_negative_tokens_counterexample :
    ((((RateLimiter.init 1 1 1 0).acquire 0 none).1.acquire 0 none).1).tokens = -1
    ∧ ((((RateLimiter.init 1 1 1 0).acquire 0 none).1.acquire 0 none).2) =
        .grantedAfterWait 1
    ∧ ¬ ((0 : ℚ) ≤ (((RateLimiter.init 1 1 1 0).acquire 0 none).1.acquire 0 none).1.tokens) := by
  refine ⟨?_, ?_, ?_⟩ <;>
    norm_num [RateLimiter.init, RateLimiter.acquire, RateLimiter.refill, Option.any]

/-- The lazy refill keeps the count within `[0, max_tokens]` for a
non-degenerate configuration. -/
theorem RateLimiter.refill_bounds (s : RateLimiter) (now : ℚ)
    (hint : 0 < s.refill_interval) (hrate : 0 ≤ s.refill_rate)
    (hcap : 0 ≤ s.max_tokens) (hmax : s.tokens ≤ s.max_tokens) (h0 : 0 ≤ s.tokens) :
    (s.refill now).tokens ≤ s.max_tokens ∧ 0 ≤ (s.refill now).tokens := by
  simp only [RateLimiter.refill]
  split_ifs with h
  · refine ⟨min_le_left _ _, le_min hcap ?_⟩
    have hcyc : (1 : ℚ) ≤ (⌊(now - s.last_refill) / s.refill_interval⌋ : ℚ) := by
      have h1 : (1 : ℚ) ≤ (now - s.last_refill) / s.refill_interval := by
        rw [le_div_iff₀ hint]; linarith
      calc (1 : ℚ) = ((1 : ℤ) : ℚ) := by norm_num
        _ ≤ (⌊(now - s.last_refill) / s.refill_interval⌋ : ℚ) := by
            exact_mod_cast Int.le_floor.mpr h1
    nlinarith
  · exact ⟨hmax, h0⟩

/-- C4 (amended).  Token bucket invariant as the code enforces it: for a
non-degenerate configuration the count never exceeds the capacity after
any `acquire` path (the lazy refill caps at capacity), and the
immediate-grant and refusal paths also keep it non-negative; but a grant
reached after the waited suspension decrements without refilling, and
that path alone can leave the count negative (see the counterexample). -/
theorem rate_limiter_token_bounds (s : RateLimiter) (now : ℚ) (timeout : Option ℚ)
    (hint : 0 < s.refill_interval) (hrate : 0 ≤ s.refill_rate)
    (hcap : 0 ≤ s.max_tokens) (hmax : s.tokens ≤ s.max_tokens) (h0 : 0 ≤ s.tokens) :
    (s.acquire now timeout).1.tokens ≤ s.max_tokens
    ∧ ((s.acquire now timeout).2.waited = false →
        0 ≤ (s.acquire now timeout).1.tokens) := by
  have hb := s.refill_bounds now hint hrate hcap hmax h0
  simp only [RateLimiter.acquire]
  split_ifs with h1 h2 h3
  · refine ⟨?_, fun _ => ?_⟩
    · show (s.refill now).tokens - 1 ≤ s.max_tokens
      linarith [hb.1]
    · show (0 : ℚ) ≤ (s.refill now).tokens - 1
      linarith
  · exact ⟨hb.1, fun _ => hb.2⟩
  · exact ⟨hb.1, fun _ => hb.2⟩
  · refine ⟨?_, fun hw => ?_⟩
    · show (s.refill now).tokens - 1 ≤ s.max_tokens
      linarith [hb.1]
    · exact absurd hw (by simp [AcquireOutcome.waited])

/-- Witness for the amended C4 theorem at a concrete bucket. -/
theorem rate_limiter_token_bounds_witness :
    ((0 : ℚ) < (RateLimiter.init 10 1 1 0).refill_interval
      ∧ (0 : ℚ) ≤ (RateLimiter.init 10 1 1 0).tokens)
    ∧ ((RateLimiter.init 10 1 1 0).acquire 5 none).1.tokens ≤
        (RateLimiter.init 10 1 1 0).max_tokens
    ∧ (((RateLimiter.init 10 1 1 0).acquire 5 none).2.waited = false →
        0 ≤ ((RateLimiter.init 10 1 1 0).acquire 5 none).1.tokens) :=
  ⟨⟨by norm_num [RateLimiter.init], by norm_num [RateLimiter.init]⟩,
   (rate_limiter_token_bounds (RateLimiter.init 10 1 1 0) 5 none
      (by norm_num [RateLimiter.init]) (by norm_num [RateLimiter.init])
      (by norm_num [RateLimiter.init]) (by norm_num [RateLimiter.init])
      (by norm_num [RateLimiter.init])).1,
   (rate_limiter_token_bounds (RateLimiter.init 10 1 1 0) 5 none
      (by norm_num [RateLimiter.init]) (by norm_num [RateLimiter.init])
      (by norm_num [RateLimiter.init]) (by norm_num [RateLimiter.init])
      (by norm_num [RateLimiter.init])).2⟩

/-- C5.  Reconnect bound: with `max_reconnect_attempts = 3` and a
connection opener that always fails, `_reconnect` sleeps
`reconnect_delay * 2 ** min(attempt, 5)` before each of exactly 3
attempted reopens, then sets the state to Disconnected and raises
`SecureNotifyConnectionError` to whoever awaited the original call. -/
theorem reconnect_bound (delay : ℚ) (open_ok : Nat → Bool)
    (hfail : ∀ k, k < 3 → open_ok k = false) :
    reconnect delay open_ok 3 =
      { sleeps := [delay * 2 ^ min 0 5, delay * 2 ^ min 1 5, delay * 2 ^ min 2 5]
        attempts := 3
        finalState := .disconnected
        outcome := .error (.connectionError "Failed to reconnect after 3 attempts") } := by
  have h0 := hfail 0 (by norm_num)
  have h1 := hfail 1 (by norm_num)
  have h2 := hfail 2 (by norm_num)
  simp only [reconnect, reconnectLoop, h0, h1, h2, Bool.false_eq_true, if_false]
  rfl

/-- Witness for C5 with the always-failing opener and delay 1. -/
theorem reconnect_bound_witness :
    (∀ k, k < 3 → (fun _ => false : Nat → Bool) k = false)
    ∧ reconnect 1 (fun _ => false) 3 =
      { sleeps := [1 * 2 ^ min 0 5, 1 * 2 ^ min 1 5, 1 * 2 ^ min 2 5]
        attempts := 3
        finalState := .disconnected
        outcome := .error (.connectionError "Failed to reconnect after 3 attempts") } :=
  ⟨fun _ _ => rfl, reconnect_bound 1 (fun _ => false) (fun _ _ => rfl)⟩

/-- The literal stream text of the C6 scenario,
`"event: ping\nid: 7\ndata: \x7b\"x\":1\x7d\n\n"` (33 characters). -/
def ssePingText : List Char :=
  ("event: ping\nid: 7\ndata: " ++ String.mk [lbrace] ++ "\"x\":1" ++
    String.mk [rbrace] ++ "\n\n").data

/-- The single frame that text must produce: type `"ping"`, id `"7"`,
data parsed to the one-field object mapping `"x"` to `1`. -/
def ssePingFrame : SSEFrame :=
  { eventType := "ping"
    payload := .jsonData (.obj [("x", .num 1)])
    eventId := some "7" }

/-- The frame the source actually dispatches when the text is split
after `"event"`: the carried fragment is overwritten, the mangled line
`": ping"` is discarded as a comment, and the frame keeps the default
type `"message"`. -/
def sseCorruptFrame : SSEFrame :=
  { eventType := "message"
    payload := .jsonData (.obj [("x", .num 1)])
    eventId := some "7" }

/-- C6.  SSE chunking is NOT split-invariant in the source: because
`io.StringIO(buffer_value)` leaves the stream position at 0, the second
chunk overwrites the carried-over text (contradicting the comment at
utils/connection.py line 208, "Update buffer with remaining content").
Of the 34 two-chunk splits of the scenario text only the five whose
first chunk ends exactly on a line boundary (0, 12, 18, 32, 33) yield
the correct single frame.  Shown here: the boundary split at 12 does
produce the `"ping"` frame; splitting after `"event"` (position 5)
dispatches one frame with the DEFAULT type `"message"` (the mangled
line `": ping"` is discarded as an SSE comment); splitting inside the
data line (position 25) dispatches NO frame; and the universally
quantified claim itself is false. -/
theorem sse_chunk_overwrite_divergence :
    (feedChunks (ListenerState.start 1)
        [ssePingText.take 12, ssePingText.drop 12]).frames = [ssePingFrame]
    ∧ (feedChunks (ListenerState.start 1)
        [ssePingText.take 5, ssePingText.drop 5]).frames = [sseCorruptFrame]
    ∧ (feedChunks (ListenerState.start 1)
        [ssePingText.take 25, ssePingText.drop 25]).frames = []
    ∧ ¬ (∀ i : Fin 34,
        (feedChunks (ListenerState.start 1)
            [ssePingText.take i.val, ssePingText.drop i.val]).frames = [ssePingFrame]) := by
  refine ⟨rfl, rfl, rfl, fun hall => ?_⟩
  have h5 := hall ⟨5, by norm_num⟩
  have h5x : (feedChunks (ListenerState.start 1)
      [ssePingText.take 5, ssePingText.drop 5]).frames = [sseCorruptFrame] := rfl
  rw [h5x] at h5
  have hty := congrArg (fun l : List SSEFrame => l.head?.map SSEFrame.eventType) h5
  simp [sseCorruptFrame, ssePingFrame] at hty

/-- C8 counterexample.  Starting from the post-connect state with the
one scheduled heartbeat task, a firing invokes the handler and the task
completes with NO pending timer left: the timer is not recreated after
firing (only a later dispatched frame recreates one), contradicting
"recreated after every firing". -/
theorem heartbeat_fire_no_recreation_counterexample :
    (heartbeatStep true .fire HeartbeatSlice.afterConnect).pendingTimers = []
    ∧ (heartbeatStep true .fire HeartbeatSlice.afterConnect).handlerCalls = 1
    ∧ (heartbeatStep true .fire HeartbeatSlice.afterConnect).connState = .connected :=
  ⟨rfl, rfl, rfl⟩

/-- One heartbeat lifecycle step preserves the at-most-one-pending-timer
consistency. -/
theorem heartbeatStep_wf (hasHandler : Bool) (ev : HeartbeatEvent) (s : HeartbeatSlice)
    (hwf : HeartbeatWf s) : HeartbeatWf (heartbeatStep hasHandler ev s) := by
  cases ev with
  | fire =>
      rcases hwf with h | ⟨t, ht, hp⟩
      · simp [heartbeatStep, h, HeartbeatWf]
      · simp [heartbeatStep, hp, HeartbeatWf]
  | frameDispatched =>
      rcases hwf with h | ⟨t, ht, hp⟩
      · cases hh : s.heartbeatTask with
        | none => simpa [heartbeatStep, hh] using Or.inl h
        | some u =>
            refine Or.inr ⟨s.nextTimer, ?_, ?_⟩ <;> simp [heartbeatStep, hh, h]
      · refine Or.inr ⟨s.nextTimer, ?_, ?_⟩ <;> simp [heartbeatStep, ht, hp]

/-- Every heartbeat event sequence preserves the consistency invariant. -/
theorem heartbeatRun_wf (hasHandler : Bool) :
    ∀ (evs : List HeartbeatEvent) (s : HeartbeatSlice), HeartbeatWf s →
      HeartbeatWf (heartbeatRun hasHandler evs s) := by
  intro evs
  induction evs with
  | nil => intro s h; exact h
  | cons ev rest ih =>
      intro s h
      exact ih _ (heartbeatStep_wf hasHandler ev s h)

/-- C8 (amended).  Heartbeat timer lifecycle as the code implements it:
along any sequence of firings and frame-dispatch resets from a
consistent state, at most one timer is ever pending; no heartbeat event
ever changes the connection state (a firing never forces disconnection);
a firing invokes the registered heartbeat handler exactly once — and
consumes the pending timer WITHOUT recreating it (recreation happens
only at the next dispatched frame, whose reset cancels the referenced
task and schedules exactly one fresh timer). -/
theorem heartbeat_timer_lifecycle (hasHandler : Bool) :
    (∀ (evs : List HeartbeatEvent) (s : HeartbeatSlice), HeartbeatWf s →
        HeartbeatWf (heartbeatRun hasHandler evs s)
        ∧ (heartbeatRun hasHandler evs s).pendingTimers.length ≤ 1)
    ∧ (∀ (ev : HeartbeatEvent) (s : HeartbeatSlice),
        (heartbeatStep hasHandler ev s).connState = s.connState)
    ∧ (∀ (s : HeartbeatSlice) (t : Nat) (rest : List Nat),
        s.pendingTimers = t :: rest →
        (heartbeatStep true .fire s).handlerCalls = s.handlerCalls + 1
        ∧ (heartbeatStep false .fire s).handlerCalls = s.handlerCalls
        ∧ (heartbeatStep hasHandler .fire s).pendingTimers = rest)
    ∧ (∀ (s : HeartbeatSlice), HeartbeatWf s → ∀ t, s.heartbeatTask = some t →
        (heartbeatStep hasHandler .frameDispatched s).pendingTimers = [s.nextTimer]) := by
  refine ⟨?_, ?_, ?_, ?_⟩
  · intro evs s h
    have hw := heartbeatRun_wf hasHandler evs s h
    refine ⟨hw, ?_⟩
    rcases hw with h' | ⟨t, _, hp⟩
    · simp [h']
    · simp [hp]
  · intro ev s
    cases ev with
    | fire => cases hp : s.pendingTimers <;> simp [heartbeatStep, hp]
    | frameDispatched => cases hh : s.heartbeatTask <;> simp [heartbeatStep, hh]
  · intro s t rest hp
    refine ⟨?_, ?_, ?_⟩ <;> simp [heartbeatStep, hp]
  · intro s hwf t ht
    rcases hwf with h | ⟨u, hu, hp⟩
    · simp [heartbeatStep, ht, h]
    · rw [ht] at hu
      cases hu
      simp [heartbeatStep, ht, hp]

/-- Witness for the amended C8 theorem: a reset followed by a firing
from the post-connect state. -/
theorem heartbeat_timer_lifecycle_witness :
    HeartbeatWf HeartbeatSlice.afterConnect
    ∧ (HeartbeatWf (heartbeatRun true [.frameDispatched, .fire] HeartbeatSlice.afterConnect)
        ∧ (heartbeatRun true [.frameDispatched, .fire]
            HeartbeatSlice.afterConnect).pendingTimers.length ≤ 1) :=
  ⟨Or.inr ⟨0, rfl, rfl⟩,
   (heartbeat_timer_lifecycle true).1 [.frameDispatched, .fire]
     HeartbeatSlice.afterConnect (Or.inr ⟨0, rfl, rfl⟩)⟩
/-- Deleting an entry never lengthens a dict. -/
theorem adel_length_le {κ β : Type} [DecidableEq κ] (l : List (κ × β)) (k : κ) :
    (adel l k).length ≤ l.length := by
  induction l with
  | nil => simp [adel]
  | cons p rest ih =>
      cases p with
      | mk k' v =>
          by_cases hk : k' = k
          · simp [adel, hk]
          · simp only [adel, if_neg hk, List.length_cons]
            omega

/-- The miss path respects the pending-set capacity. -/
theorem missPath_pending_length {α : Type} (s : Dedup α) (key : String) (now : ℚ)
    (h1 : 1 ≤ s.max_pending) (h2 : s.pending.length ≤ s.max_pending) :
    (s.missPath key now).1.pending.length ≤ s.max_pending := by
  simp only [Dedup.missPath]
  split_ifs with h
  · simp only [List.length_append, List.length_drop, List.length_cons, List.length_nil]
    omega
  · simp only [List.length_append, List.length_cons, List.length_nil]
    omega


/-- How `cancelFuture` acts on a lookup: the looked-up state is
cancelled exactly when it was unsettled and the id matches. -/
theorem cancelFuture_lookup {α : Type} (l : List (Nat × FutureState α)) (f' fid : Nat) :
    alookup (cancelFuture l f') fid =
      (alookup l fid).map (fun st =>
        match st with
        | .pendingF => if fid = f' then .cancelled else .pendingF
        | s => s) := by
  induction l with
  | nil => rfl
  | cons p rest ih =>
      obtain ⟨i, st⟩ := p
      by_cases hk : i = fid
      · subst hk
        cases st <;> simp [cancelFuture, alookup]
      · cases st <;> simpa [cancelFuture, alookup, hk] using ih

/-- A cancelled future stays cancelled under any further cancellation
sweep. -/
theorem foldl_cancel_keeps {α : Type} (pend : List (String × Nat × ℚ)) :
    ∀ (fs : List (Nat × FutureState α)) (fid : Nat),
      alookup fs fid = some .cancelled →
      alookup (pend.foldl (fun a p => cancelFuture a p.2.1) fs) fid = some .cancelled := by
  induction pend with
  | nil => intro fs fid h; exact h
  | cons p rest ih =>
      intro fs fid h
      refine ih _ fid ?_
      rw [cancelFuture_lookup, h]
      simp

/-- The `clear_pending` sweep cancels every unsettled future that some
pending entry references. -/
theorem foldl_cancel_mem {α : Type} (pend : List (String × Nat × ℚ)) :
    ∀ (fs : List (Nat × FutureState α)) (fid : Nat),
      (∃ k ts, (k, fid, ts) ∈ pend) →
      (alookup fs fid = some .pendingF ∨ alookup fs fid = some .cancelled) →
      alookup (pend.foldl (fun a p => cancelFuture a p.2.1) fs) fid = some .cancelled := by
  induction pend with
  | nil =>
      intro fs fid hmem _
      obtain ⟨k, ts, hk⟩ := hmem
      simp at hk
  | cons p rest ih =>
      intro fs fid hmem hdisj
      obtain ⟨k, ts, hk⟩ := hmem
      rcases List.mem_cons.mp hk with hhead | htail
      · have hp : p.2.1 = fid := by rw [← hhead]
        refine foldl_cancel_keeps rest _ fid ?_
        rcases hdisj with h | h <;> rw [cancelFuture_lookup, h, hp] <;> simp
      · refine ih _ fid ⟨k, ts, htail⟩ ?_
        rcases hdisj with h | h
        · by_cases hp : fid = p.2.1
          · right; rw [cancelFuture_lookup, h, hp]; simp
          · left; rw [cancelFuture_lookup, h]; simp [hp]
        · right; rw [cancelFuture_lookup, h]; simp

/-- A deduplicator at pending capacity 1 holding one in-flight entry
`"k0"` whose future (id 0) is unsettled. -/
def dedupEvictDemo : Dedup Nat :=
  { ttl_seconds := 5, max_pending := 1, max_cached := 10000
    pending := [("k0", 0, 0)], completed := [], futures := [(0, .pendingF)]
    nextFuture := 1, hits := 0, misses := 0, errors := 0 }

/-- C7 counterexample.  Registering a new key on a full pending set
evicts the oldest entry `"k0"`, but the completion handle of the
evicted entry is NOT fulfilled with any cancellation signal: future 0 is still
unsettled after the eviction, contradicting the claimed best-effort
cancellation. -/
theorem dedup_eviction_no_cancel_counterexample :
    alookup ((dedupEvictDemo.executeStart "k1" true 0).1).pending "k0" = none
    ∧ alookup ((dedupEvictDemo.executeStart "k1" true 0).1).pending "k1" = some (1, 0)
    ∧ alookup ((dedupEvictDemo.executeStart "k1" true 0).1).futures 0 = some .pendingF
    ∧ ((dedupEvictDemo.executeStart "k1" true 0).1).pending.length = 1 :=
  ⟨rfl, rfl, rfl, rfl⟩

/-- C7 (amended).  The pending set never exceeds `max_pending` entries
(for a positive capacity): when registering a new key would exceed it,
the oldest entry by insertion order is evicted before the new key is
added — but the eviction merely deletes the dict entry and leaves the
evicted future untouched (no cancellation signal; its waiters keep
awaiting the original executor, which still settles that future).  Only
`clear_pending` fulfils unsettled pending futures with a cancellation. -/
theorem dedup_pending_bound_and_eviction (α : Type) :
    (∀ (s : Dedup α) (key : String) (u : Bool) (now : ℚ),
        1 ≤ s.max_pending → s.pending.length ≤ s.max_pending →
        (s.executeStart key u now).1.pending.length ≤ s.max_pending)
    ∧ (∀ (s : Dedup α) (key : String) (u : Bool) (now : ℚ),
        alookup s.completed key = none → alookup s.pending key = none →
        s.max_pending ≤ s.pending.length →
        (s.executeStart key u now).1.pending =
            s.pending.drop 1 ++ [(key, s.nextFuture, now)]
        ∧ (s.executeStart key u now).1.futures =
            s.futures ++ [(s.nextFuture, .pendingF)])
    ∧ (∀ (s : Dedup α) (k : String) (fid : Nat) (ts : ℚ),
        (k, fid, ts) ∈ s.pending →
        alookup s.futures fid = some .pendingF →
        alookup (s.clear_pending).1.futures fid = some .cancelled
        ∧ (s.clear_pending).1.pending = []) := by
  refine ⟨?_, ?_, ?_⟩
  · intro s key u now h1 h2
    simp only [Dedup.executeStart]
    cases hc : (if u then alookup s.completed key else none) with
    | some v => simpa using h2
    | none =>
        cases hp : alookup s.pending key with
        | some q =>
            obtain ⟨fid, ts⟩ := q
            by_cases hd : s.futureDone fid = true
            · simp only [hd, if_true]
              exact missPath_pending_length _ key now h1
                (le_trans (adel_length_le s.pending key) h2)
            · simp only [hd, if_false]
              simpa using h2
        | none => exact missPath_pending_length s key now h1 h2
  · intro s key u now hc hp hfull
    simp only [Dedup.executeStart, Dedup.missPath]
    cases hu : u <;> simp only [hc, hp, if_true, if_false, hfull]
    · exact ⟨by simp [hfull], by trivial⟩
    · exact ⟨by simp [hfull], by trivial⟩
  · intro s k fid ts hmem hf
    constructor
    · exact foldl_cancel_mem s.pending s.futures fid ⟨k, ts, hmem⟩ (Or.inl hf)
    · rfl

/-- Witness for the amended C7 theorem at the concrete capacity-1
deduplicator. -/
theorem dedup_pending_bound_and_eviction_witness :
    (1 ≤ dedupEvictDemo.max_pending
      ∧ dedupEvictDemo.pending.length ≤ dedupEvictDemo.max_pending)
    ∧ (dedupEvictDemo.executeStart "k1" true 0).1.pending.length ≤
        dedupEvictDemo.max_pending
    ∧ (alookup (dedupEvictDemo.clear_pending).1.futures 0 = some .cancelled
        ∧ (dedupEvictDemo.clear_pending).1.pending = []) :=
  ⟨⟨Nat.le_refl 1, Nat.le_refl 1⟩,
   (dedup_pending_bound_and_eviction Nat).1 dedupEvictDemo "k1" true 0
     (Nat.le_refl 1) (Nat.le_refl 1),
   (dedup_pending_bound_and_eviction Nat).2.2 dedupEvictDemo "k0" 0 0
     (List.mem_singleton.mpr rfl) rfl⟩

/-- The deterministic asyncio execution of two concurrent duplicate
`execute` calls (same endpoint, `params = None`) on a fresh
deduplicator: task 0 runs its prefix and suspends inside `await func()`;
task 1 runs its prefix and suspends at `return await pending.future`,
holding `_pending_lock`; `func` resolves with `42` and task 0 resumes;
task 0 settles the future, then its `finally` block blocks the thread
on `_pending_lock`. -/
def dedupDeadlockSys : DedupSystem Nat :=
  DedupSystem.run (generate_key_input "register_public_key" none) true 0
    (.ok 42) (DedupSystem.init (Dedup.init Nat 5 1000 10000) 2) [0, 1, 0, 0]

/-- A halted system ignores every further task activation: the thread
is stuck in a synchronous `Lock.acquire`. -/
theorem stepTask_halted {α : Type} (key : String) (u : Bool) (now : ℚ)
    (r : Except SNError α) (sys : DedupSystem α) (i : Nat)
    (h : sys.halted = true) :
    DedupSystem.stepTask key u now r sys i = sys := by
  simp [DedupSystem.stepTask, h]

/-- A halted system is a fixed point of every schedule. -/
theorem run_halted {α : Type} (key : String) (u : Bool) (now : ℚ)
    (r : Except SNError α) (sys : DedupSystem α) (h : sys.halted = true) :
    ∀ sched : List Nat, DedupSystem.run key u now r sys sched = sys := by
  intro sched
  induction sched with
  | nil => rfl
  | cons j rest ih =>
      show DedupSystem.run key u now r
        (DedupSystem.stepTask key u now r sys j) rest = sys
      rw [stepTask_halted key u now r sys j h]
      exact ih

/-- C1.  Two concurrent duplicate `execute` calls deadlock instead of
sharing the result: the waiter suspends at `return await
pending.future` while holding `_pending_lock` (request_deduplicator.py
lines 139-146), so when the single invocation resolves and the winner
reaches its `finally` block (line 191), its synchronous
`_pending_lock` acquisition blocks the only thread.  In the final
state the loop is halted, the winner is stuck on the lock, the waiter
still holds it and is still awaiting, exactly one invocation happened
(one miss, one hit) and the shared future does carry the result `42` —
yet no caller is ever in a completed phase, and every further schedule
leaves the state unchanged, so no caller ever receives the result.  A
third concurrent caller makes it no better: its prefix blocks the
thread on the held lock just as fast.  This contradicts the module
docstring (request_deduplicator.py lines 31-53, "returns the same
result to all concurrent requests ... result1 == result2"): the claim
states the documented intent and the code has a lock-across-await
slip. -/
theorem dedup_waiter_lock_deadlock :
    dedupDeadlockSys.halted = true
    ∧ dedupDeadlockSys.tasks =
        [.blockedOnLock 0 (.ok 42), .awaitingFuture 0]
    ∧ dedupDeadlockSys.lockHolder = some 1
    ∧ dedupDeadlockSys.dedup.misses = 1 ∧ dedupDeadlockSys.dedup.hits = 1
    ∧ dedupDeadlockSys.dedup.futureResult 0 = some (.ok 42)
    ∧ (∀ ph ∈ dedupDeadlockSys.tasks, ∀ v : Except SNError Nat,
        ph ≠ .completed v)
    ∧ (∀ sched : List Nat,
        DedupSystem.run (generate_key_input "register_public_key" none) true 0
          (.ok 42) dedupDeadlockSys sched = dedupDeadlockSys)
    ∧ (DedupSystem.run (generate_key_input "register_public_key" none) true 0
        ((.ok 42 : Except SNError Nat))
        (DedupSystem.init (Dedup.init Nat 5 1000 10000) 3) [0, 1, 2]).halted = true := by
  refine ⟨rfl, rfl, rfl, rfl, rfl, rfl, ?_,
    run_halted _ _ _ _ _ rfl, rfl⟩
  intro ph hm v hph
  have ht : dedupDeadlockSys.tasks =
      [.blockedOnLock 0 (.ok 42), .awaitingFuture 0] := rfl
  rw [ht] at hm
  simp only [List.mem_cons, List.not_mem_nil, or_false] at hm
  rcases hm with h1 | h1 <;> subst h1 <;> simp at hph
